import Mathlib

/-!
Verification development for the Jiraldo bot (src/main.py).

The Python source is shallowly embedded: each HTTP interaction is modelled by
an explicit result value (`HttpResult`: a status code with a parsed payload, or
a transport/parse exception), and every side-effecting routine additionally
returns the trace of outbound calls it makes, so that claims about "no further
HTTP call is issued" become statements about the trace.  Text processing
(lowercasing, the mention-stripping regular expression, whitespace stripping,
Python's substring test `in`) is embedded over `List Char`.
-/

namespace Jiraldo

/-! ### Text utilities (Python `str.lower`, `re.sub`, `str.strip`, `in`) -/

/-- Python `str.lower` restricted to ASCII letters (the only case the
keywords and the modelled inputs exercise); `Char.toLower` is exactly
ASCII lowercasing. -/
def pyLower (l : List Char) : List Char := l.map Char.toLower

/-- Characters matched by the character class `[A-Z0-9]` of the
mention-stripping regular expression `<@[A-Z0-9]+>` (main.py line 305). -/
def isMentionChar (c : Char) : Bool :=
  decide (('A' ≤ c ∧ c ≤ 'Z') ∨ ('0' ≤ c ∧ c ≤ '9'))

/-- Python `str.strip` whitespace set (ASCII part). -/
def isPySpace (c : Char) : Bool :=
  decide (c = ' ' ∨ c = '\t' ∨ c = '\n' ∨ c = '\r' ∨ c = Char.ofNat 11 ∨ c = Char.ofNat 12)

/-- Python `str.strip()`: drop whitespace from both ends. -/
def pyStrip (l : List Char) : List Char :=
  ((l.dropWhile isPySpace).reverse.dropWhile isPySpace).reverse

/-- After `<@` and at least one `[A-Z0-9]` character: consume further
`[A-Z0-9]` characters until a closing `>`; `some rest` is the text after the
match, `none` means the regular expression does not match here. -/
def mentionTail : List Char → Option (List Char)
  | [] => none
  | c :: cs =>
    if c = '>' then some cs
    else if isMentionChar c then mentionTail cs
    else none

/-- After `<@`: the regular expression requires one or more `[A-Z0-9]`
characters followed by `>`. -/
def mentionAfterAt : List Char → Option (List Char)
  | [] => none
  | c :: cs => if isMentionChar c then mentionTail cs else none

/-- One left-to-right scan of `re.sub(r'<@[A-Z0-9]+>', '', text)`:
at each position try to match the pattern; on a match, skip past it
(non-overlapping), otherwise keep the character and advance by one.
The fuel argument (always instantiated with the length of the list) makes the
recursion structural, since a successful match jumps over a non-structural
suffix; each step consumes at least one character, so the fuel never runs out. -/
def removeMentionsAux : Nat → List Char → List Char
  | 0, l => l
  | _ + 1, [] => []
  | fuel + 1, c :: cs =>
    if c = '<' then
      match cs with
      | '@' :: rest =>
        match mentionAfterAt rest with
        | some tail => removeMentionsAux fuel tail
        | none => c :: removeMentionsAux fuel cs
      | _ => c :: removeMentionsAux fuel cs
    else c :: removeMentionsAux fuel cs

/-- `re.sub(r'<@[A-Z0-9]+>', '', text)` (main.py line 305). -/
def removeMentions (l : List Char) : List Char := removeMentionsAux l.length l

/-- `text_clean = re.sub(r'<@[A-Z0-9]+>', '', text_lower).strip()`
(main.py lines 302–305). -/
def cleanText (text : String) : List Char :=
  pyStrip (removeMentions (pyLower text.data))

/-- Python substring test `needle in hay`. -/
def containsSub (needle : List Char) : List Char → Bool
  | [] => needle.isEmpty
  | c :: cs => needle.isPrefixOf (c :: cs) || containsSub needle cs

/-- `any(word in text_clean for word in kws)` (main.py lines 322, 345, 370, 394). -/
def matchesAny (kws : List String) (tc : List Char) : Bool :=
  kws.any (fun k => containsSub k.data tc)

/-- Substring test over whole strings, used for status/priority keyword
checks such as `"progress" in status.lower()`. -/
def strIn (needle : String) (hay : String) : Bool :=
  containsSub needle.data (pyLower hay.data)

/-! ### Issue-tracker layer (main.py lines 47–164)

An HTTP interaction with the tracker is modelled by its outcome: `ok status
issues` is a response with the given status code whose parsed body carries the
given issue list (`response.json().get("issues", [])`), and `exn` is any
transport/timeout/parse exception raised inside the `try` block. -/

inductive HttpResult (α : Type) where
  | ok (status : Nat) (issues : List α)
  | exn
deriving DecidableEq

/-- `response.status_code == 200`. -/
def HttpResult.isSuccess {α : Type} : HttpResult α → Bool
  | .ok s _ => s == 200
  | .exn => false

/-- Fields of an issue as consumed by the personal-tickets path. -/
structure Ticket where
  key : String
  summary : String
  status : String
  priority : String
deriving DecidableEq

/-- Fields of an issue as consumed by the team aggregation:
`fields.assignee.emailAddress`, `fields.assignee.displayName`,
`fields.status.name`. -/
structure TeamIssue where
  assigneeEmail : String
  assigneeName : String
  status : String
deriving DecidableEq

/-- Fields of an issue as consumed by the deadline path; the due date
(`%Y-%m-%d`) is represented by its calendar day ordinal. -/
structure DeadlineIssue where
  key : String
  summary : String
  dueDay : Int
  assigneeName : String
deriving DecidableEq

/-- Fields of an issue as consumed by the poller; `fields.assignee` may be
missing/null (`assignment["fields"].get("assignee")`). -/
structure AssignmentIssue where
  key : String
  summary : String
  assigneeEmail : Option String
  priority : String
deriving DecidableEq

/-- The request body built by `get_user_tickets` (main.py lines 50–57). -/
structure JiraRequest where
  jql : String
  fields : List String
  maxResults : Nat
deriving DecidableEq

/-- `get_user_tickets` request payload: JQL, field list, `maxResults: 20`. -/
def userTicketsRequest (email : String) : JiraRequest :=
  { jql := "assignee = \"" ++ email ++ "\" AND status != Done ORDER BY priority DESC, created DESC"
    fields := ["key", "summary", "status", "priority", "assignee", "created", "duedate"]
    maxResults := 20 }

/-- `get_user_tickets` (main.py lines 47–67): on status 200 return the
payload's issue list as is; on any other status return `[]`; any exception is
caught and `[]` returned. -/
def get_user_tickets (r : HttpResult Ticket) : List Ticket :=
  match r with
  | .ok s issues => if s = 200 then issues else []
  | .exn => []

/-- `get_upcoming_deadlines` (main.py lines 119–140): same shape. -/
def get_upcoming_deadlines (r : HttpResult DeadlineIssue) : List DeadlineIssue :=
  match r with
  | .ok s issues => if s = 200 then issues else []
  | .exn => []

/-- `get_recent_assignments` (main.py lines 142–164): same shape (the non-200
branch additionally logs before returning `[]`). -/
def get_recent_assignments (r : HttpResult AssignmentIssue) : List AssignmentIssue :=
  match r with
  | .ok s issues => if s = 200 then issues else []
  | .exn => []

/-! ### Team aggregation (`get_team_summary`, main.py lines 69–117) -/

/-- `"progress" in status.lower() or "doing" in status.lower()`. -/
def isProgress (status : String) : Bool :=
  strIn "progress" status || strIn "doing" status

/-- `"do" in status.lower() or "fazer" in status.lower()`. -/
def isTodo (status : String) : Bool :=
  strIn "do" status || strIn "fazer" status

/-- `"block" in status.lower() or "bloque" in status.lower()`. -/
def isBlocked (status : String) : Bool :=
  strIn "block" status || strIn "bloque" status

/-- A status string matching none of the three category keyword classes. -/
def matchesNoClass (status : String) : Bool :=
  !isProgress status && !isTodo status && !isBlocked status

/-- The per-assignee record of `team_stats` (main.py lines 95–101). -/
structure TeamStat where
  name : String
  total : Nat
  em_progresso : Nat
  a_fazer : Nat
  bloqueado : Nat
deriving DecidableEq

/-- Fresh record inserted when an assignee is first seen (main.py lines 94–101). -/
def freshStat (name : String) : TeamStat :=
  { name := name, total := 0, em_progresso := 0, a_fazer := 0, bloqueado := 0 }

/-- Processing of one issue against its assignee's record (main.py lines
103–110): `total` always increments, then the `if`/`elif` chain increments at
most one of the three category counters. -/
def bumpStat (t : TeamStat) (status : String) : TeamStat :=
  let t := { t with total := t.total + 1 }
  if isProgress status then { t with em_progresso := t.em_progresso + 1 }
  else if isTodo status then { t with a_fazer := t.a_fazer + 1 }
  else if isBlocked status then { t with bloqueado := t.bloqueado + 1 }
  else t

/-- Sum of the three category counters. -/
def catSum (t : TeamStat) : Nat :=
  t.em_progresso + t.a_fazer + t.bloqueado

/-- Dictionary lookup (`assignee in team_stats` / `team_stats[assignee]`),
on the insertion-ordered association-list model of the Python dict. -/
def lookupEntry (k : String) : List (String × TeamStat) → Option TeamStat
  | [] => none
  | (k', v) :: rest => if k' = k then some v else lookupEntry k rest

/-- Dictionary store `team_stats[assignee] = v`: overwrite in place if the key
exists, otherwise append (a Python dict preserves insertion order). -/
def setEntry (k : String) (v : TeamStat) : List (String × TeamStat) → List (String × TeamStat)
  | [] => [(k, v)]
  | (k', v') :: rest =>
    if k' = k then (k, v) :: rest else (k', v') :: setEntry k v rest

/-- The loop body of main.py lines 89–110 for a single issue. -/
def stepStats (d : List (String × TeamStat)) (i : TeamIssue) : List (String × TeamStat) :=
  setEntry i.assigneeEmail
    (bumpStat ((lookupEntry i.assigneeEmail d).getD (freshStat i.assigneeName)) i.status) d

/-- The whole aggregation loop, from the empty dict. -/
def teamStats (issues : List TeamIssue) : List (String × TeamStat) :=
  issues.foldl stepStats []

/-- The trace of one key's record through the aggregation loop: starting from
the key's current entry (`none` before first sight), process the sub-sequence
of issues carrying that assignee. -/
def runKey (o : Option TeamStat) : List TeamIssue → Option TeamStat
  | [] => o
  | i :: is => runKey (some (bumpStat (o.getD (freshStat i.assigneeName)) i.status)) is

/-- `total` of an optional entry, zero before first sight. -/
def optTotal : Option TeamStat → Nat
  | none => 0
  | some t => t.total

/-- Category-counter sum of an optional entry, zero before first sight. -/
def optCat : Option TeamStat → Nat
  | none => 0
  | some t => catSum t

/-- `get_team_summary` (main.py lines 69–117): aggregate on status 200,
empty dict on any other status or exception. -/
def get_team_summary (r : HttpResult TeamIssue) : List (String × TeamStat) :=
  match r with
  | .ok s issues => if s = 200 then teamStats issues else []
  | .exn => []

/-! ### Reply formatting (`process_natural_question`, main.py lines 299–418) -/

/-- Python `name.split()[0]` as used on display names: split on whitespace
runs and take the first component (headD models the indexing; the source
would raise on an all-whitespace name, a case no claim exercises). -/
def firstName (s : String) : String :=
  (((s.data.splitOnP (fun c => isPySpace c)).map (fun l => String.mk l)).filter
    (fun p => p ≠ "")).headD ""

/-- One line of the personal-tickets reply (main.py lines 329–336); the
`enumerate` index is not used by the source line. -/
def ticketLine (t : Ticket) : String :=
  let emoji := if strIn "high" t.priority || strIn "urgent" t.priority then "🔥" else "📝"
  emoji ++ " *" ++ t.key ++ "*: " ++ t.summary ++ " _(" ++ t.status ++ ")_\n"

/-- The `for` loop of main.py lines 329–336: lines appended in order. -/
def personalLines : List Ticket → String
  | [] => ""
  | t :: ts => ticketLine t ++ personalLines ts

/-- The personal-tickets branch body (main.py lines 322–341). -/
def personalReply (displayName : String) (tickets : List Ticket) : String :=
  if tickets.isEmpty then
    "🎉 @" ++ displayName ++ ", você não tem tickets em aberto!"
  else
    "🎯 @" ++ displayName ++ ", você tem " ++ toString tickets.length ++
      " ticket(s) em aberto:\n" ++
    personalLines (tickets.take 5) ++
    (if tickets.length > 5 then
      "\n... e mais " ++ toString (tickets.length - 5) ++ " tickets"
     else "")

/-- Concatenation of a list of already-formatted lines, as the Python reply
loops accumulate them. -/
def joinStr : List String → String
  | [] => ""
  | a :: l => a ++ joinStr l

/-- One line of the team report (main.py lines 352–366). -/
def teamLine (stats : TeamStat) : String :=
  let name := firstName stats.name
  let statusEmoji :=
    if stats.bloqueado > 0 then "🚨" else if stats.em_progresso > 2 then "🔥" else "✅"
  statusEmoji ++ " *" ++ name ++ "*: " ++ toString stats.total ++ " tickets" ++
  (if stats.em_progresso > 0 then " (" ++ toString stats.em_progresso ++ " em progresso)" else "") ++
  (if stats.bloqueado > 0 then " ⚠️ " ++ toString stats.bloqueado ++ " bloqueado(s)" else "") ++
  "\n"

/-- Stable insertion for `sorted(..., key=lambda x: x[1]["total"], reverse=True)`:
an element moves ahead only of strictly smaller totals, so equal totals keep
their original (insertion) order, as Python's stable sort does. -/
def insertByTotal (p : String × TeamStat) : List (String × TeamStat) → List (String × TeamStat)
  | [] => [p]
  | q :: qs => if q.2.total ≤ p.2.total then p :: q :: qs else q :: insertByTotal p qs

/-- `sorted(team_stats.items(), key=lambda x: x[1]["total"], reverse=True)`. -/
def sortByTotalDesc : List (String × TeamStat) → List (String × TeamStat)
  | [] => []
  | p :: ps => insertByTotal p (sortByTotalDesc ps)

/-- The team-report branch body (main.py lines 345–368); `if not team_stats`
yields the failure text for an empty dict. -/
def teamReply (stats : List (String × TeamStat)) : String :=
  if stats.isEmpty then
    "❌ Não consegui gerar relatório da equipe."
  else
    "📊 *Relatório da Equipe:*\n" ++
    joinStr (((sortByTotalDesc stats).take 10).map (fun p => teamLine p.2))

/-- `days_left = (due_datetime - datetime.now()).days` (main.py lines 384–385):
`due_datetime` is midnight of the due day, `now` is the current day plus the
current time of day in seconds, and `timedelta.days` is the floor of the
difference in days — Lean's `Int` division is Euclidean, which for the
positive divisor 86400 is exactly floor division. -/
def daysLeft (dueDay nowDay : Int) (nowSec : Nat) : Int :=
  (dueDay * 86400 - (nowDay * 86400 + (nowSec : Int))) / 86400

inductive Urgency where
  | critical
  | warning
  | normal
deriving DecidableEq

/-- `"🚨" if days_left <= 1 else "⚠️" if days_left <= 3 else "📅"`
(main.py line 387), as the three-way decision. -/
def urgencyTag (d : Int) : Urgency :=
  if d ≤ 1 then .critical else if d ≤ 3 then .warning else .normal

def urgencyMark : Urgency → String
  | .critical => "🚨"
  | .warning => "⚠️"
  | .normal => "📅"

/-- One line of the deadline reply (main.py lines 377–388). -/
def deadlineLine (nowDay : Int) (nowSec : Nat) (d : DeadlineIssue) : String :=
  let summary := d.summary.take 50
  let assigneeName := firstName d.assigneeName
  let days := daysLeft d.dueDay nowDay nowSec
  urgencyMark (urgencyTag days) ++ " *" ++ d.key ++ "*: " ++ summary ++ "... - " ++
    assigneeName ++ " (" ++ toString days ++ " dias)\n"

/-- The deadline branch body (main.py lines 370–390). -/
def deadlineReply (nowDay : Int) (nowSec : Nat) (dls : List DeadlineIssue) : String :=
  if dls.isEmpty then
    "🎉 Não há deadlines próximos nos próximos 7 dias!"
  else
    "⏰ *Deadlines Próximos:*\n" ++
    joinStr ((dls.take 10).map (deadlineLine nowDay nowSec))

/-! ### Command router (`process_natural_question`, main.py lines 299–418) -/

/-- The keyword lists of the four intent predicates, in source order. -/
def personalKws : List String := ["meus tickets", "tickets", "minhas tarefas"]

def teamKws : List String := ["relatório", "equipe", "time", "team"]

def deadlineKws : List String := ["deadline", "prazo", "vencimento", "entrega"]

def helpKws : List String := ["help", "ajuda", "comandos"]

/-- `EMAIL_DOMAIN` (main.py line 24). -/
def EMAIL_DOMAIN : String := "@ifood.com.br"

/-- The part of the Slack `users.info` payload that
`process_natural_question` reads: `profile.email` (empty string when the key
chain is missing), `name` (empty string when missing), and `real_name`
(`none` when the key is missing, so that `get` falls back to `name`). -/
structure SlackUser where
  profileEmail : String
  name : String
  realName : Option String
deriving DecidableEq

/-- The external data one call of `process_natural_question` can observe:
the `users.info` outcome (`none` for a failed lookup) and the tracker
response each intent's fetch would receive, plus the current datetime
(day ordinal and time of day in seconds) read by the deadline branch. -/
structure World where
  slackUser : Option SlackUser
  userTicketsResp : HttpResult Ticket
  teamResp : HttpResult TeamIssue
  deadlinesResp : HttpResult DeadlineIssue
  nowDay : Int
  nowSec : Nat
deriving DecidableEq

/-- Outbound calls `process_natural_question` can make, in order. -/
inductive Call where
  | slackUserLookup
  | jiraUserTickets (email : String)
  | jiraTeamSearch
  | jiraDeadlineSearch
deriving DecidableEq

def helpText : String :=
  "🤖 *Comandos do Jiraldo:*\n\n*👤 Pessoais:*\n• \"meus tickets\" - Ver seus tickets\n• \"minhas tarefas\" - Mesma coisa\n\n*👥 Equipe:*  \n• \"relatório da equipe\" - Status do time\n• \"deadlines próximos\" - Prazos importantes\n\n*💡 Exemplos:*\n• @Jiraldo meus tickets\n• @Jiraldo relatório da equipe\n• @Jiraldo deadlines próximos"

def fallbackText (displayName : String) : String :=
  "🤔 @" ++ displayName ++ ", não entendi sua pergunta. \n\nTente:\n• \"meus tickets\" \n• \"relatório da equipe\"\n• \"deadlines próximos\"\n• \"help\" para ver todos os comandos"

/-- `process_natural_question` (main.py lines 299–418), with the reply text
paired with the trace of outbound calls.  The user lookup happens first; a
failed lookup returns the identification error before any intent predicate is
tested.  `user_email` falls back to `name + EMAIL_DOMAIN` when the profile
email is empty (Python falsiness of the empty string), and `display_name` is
`real_name` with `name` as the missing-key default. -/
def process_natural_question (w : World) (text : String) : String × List Call :=
  let textClean := cleanText text
  match w.slackUser with
  | none => ("❌ Não consegui identificar seu usuário.", [Call.slackUserLookup])
  | some su =>
    let userEmail := if su.profileEmail = "" then su.name ++ EMAIL_DOMAIN else su.profileEmail
    let displayName := su.realName.getD su.name
    if matchesAny personalKws textClean then
      (personalReply displayName (get_user_tickets w.userTicketsResp),
       [Call.slackUserLookup, Call.jiraUserTickets userEmail])
    else if matchesAny teamKws textClean then
      (teamReply (get_team_summary w.teamResp),
       [Call.slackUserLookup, Call.jiraTeamSearch])
    else if matchesAny deadlineKws textClean then
      (deadlineReply w.nowDay w.nowSec (get_upcoming_deadlines w.deadlinesResp),
       [Call.slackUserLookup, Call.jiraDeadlineSearch])
    else if matchesAny helpKws textClean then
      (helpText, [Call.slackUserLookup])
    else
      (fallbackText displayName, [Call.slackUserLookup])

/-! ### Direct messages (`send_slack_dm`, main.py lines 217–256) -/

/-- Outcome of the `users.lookupByEmail` call: `ok` with the resolved user id
when the response has `ok: true`, `notOk` when it has `ok: false` (or no `ok`
field), `exn` when the request raises. -/
inductive LookupOutcome where
  | ok (userId : String)
  | notOk
  | exn
deriving DecidableEq

/-- `ok: true` test on the `users.lookupByEmail` outcome. -/
def LookupOutcome.isOk : LookupOutcome → Bool
  | .ok _ => true
  | .notOk => false
  | .exn => false

/-- Outcome of the `chat.postMessage` call. -/
inductive PostOutcome where
  | ok (success : Bool)
  | exn
deriving DecidableEq

/-- Outbound HTTP calls `send_slack_dm` can make. -/
inductive DmCall where
  | lookupByEmail (email : String)
  | postMessage (channel : String)
deriving DecidableEq

/-- `send_slack_dm` (main.py lines 217–256): look the email up first; only a
successful lookup reaches the `chat.postMessage` request.  Every exception is
caught and turned into `False`. -/
def send_slack_dm (email : String) (lookup : LookupOutcome) (post : PostOutcome) :
    Bool × List DmCall :=
  match lookup with
  | .exn => (false, [DmCall.lookupByEmail email])
  | .notOk => (false, [DmCall.lookupByEmail email])
  | .ok userId =>
    match post with
    | .exn => (false, [DmCall.lookupByEmail email, DmCall.postMessage userId])
    | .ok success => (success, [DmCall.lookupByEmail email, DmCall.postMessage userId])

/-! ### Notification poller (`check_new_assignments`, main.py lines 424–442) -/

/-- `NOTIFICATION_HOURS` (main.py line 23). -/
def NOTIFICATION_HOURS : Nat × Nat := (8, 18)

/-- Effects of one poller tick: the tracker search for recent assignments and
one DM notification per assignment with a present assignee. -/
inductive PollEffect where
  | jiraRecentSearch
  | slackDm (email : String)
deriving DecidableEq

/-- `check_new_assignments` (main.py lines 424–442): outside the notification
window the function returns before any call; inside it, it fetches recent
assignments and sends one notification per assignment whose `assignee` field
is present (`send_slack_notification` extracts `assignee.emailAddress` and
delegates to `send_slack_dm`). -/
def check_new_assignments (hour : Nat) (recentResp : HttpResult AssignmentIssue) :
    List PollEffect :=
  if hour < NOTIFICATION_HOURS.1 ∨ hour > NOTIFICATION_HOURS.2 then []
  else
    PollEffect.jiraRecentSearch ::
      ((get_recent_assignments recentResp).filter (fun a => a.assigneeEmail.isSome)).map
        (fun a => PollEffect.slackDm (a.assigneeEmail.getD ""))

/-! ### Sample data used by individual witnesses -/

/-- Seven open tickets for the end-to-end personal-summary scenario. -/
def c7Tickets : List Ticket :=
  [⟨"K-1", "A", "Open", "High"⟩, ⟨"K-2", "B", "Open", "Low"⟩,
   ⟨"K-3", "C", "Open", "Low"⟩, ⟨"K-4", "D", "Open", "Low"⟩,
   ⟨"K-5", "E", "Open", "Low"⟩, ⟨"K-6", "F", "Open", "Low"⟩,
   ⟨"K-7", "G", "Open", "Low"⟩]

/-- Two issues of one assignee: one in progress, one whose status matches no
category class. -/
def c10Issues : List TeamIssue :=
  [⟨"a@x", "Ana Lima", "In Progress"⟩, ⟨"a@x", "Ana Lima", "Review"⟩]

/-! ### Claims about the failure contract and the poller -/

/-- C1: for every tracker search operation (`get_user_tickets`,
`get_recent_assignments`, `get_upcoming_deadlines`, `get_team_summary`), if
the HTTP response status is not success or a transport exception occurs, the
operation returns an empty sequence (empty aggregate for the team query); the
functions are total, so no exception reaches the caller. -/
theorem C1_search_ops_empty_on_failure
    (r1 : HttpResult Ticket) (r2 : HttpResult AssignmentIssue)
    (r3 : HttpResult DeadlineIssue) (r4 : HttpResult TeamIssue)
    (h1 : r1.isSuccess = false) (h2 : r2.isSuccess = false)
    (h3 : r3.isSuccess = false) (h4 : r4.isSuccess = false) :
    get_user_tickets r1 = [] ∧ get_recent_assignments r2 = [] ∧
      get_upcoming_deadlines r3 = [] ∧ get_team_summary r4 = [] := by
  refine ⟨?_, ?_, ?_, ?_⟩
  · cases r1 with
    | exn => rfl
    | ok s issues =>
      simp only [HttpResult.isSuccess, beq_eq_false_iff_ne, ne_eq] at h1
      simp [get_user_tickets, h1]
  · cases r2 with
    | exn => rfl
    | ok s issues =>
      simp only [HttpResult.isSuccess, beq_eq_false_iff_ne, ne_eq] at h2
      simp [get_recent_assignments, h2]
  · cases r3 with
    | exn => rfl
    | ok s issues =>
      simp only [HttpResult.isSuccess, beq_eq_false_iff_ne, ne_eq] at h3
      simp [get_upcoming_deadlines, h3]
  · cases r4 with
    | exn => rfl
    | ok s issues =>
      simp only [HttpResult.isSuccess, beq_eq_false_iff_ne, ne_eq] at h4
      simp [get_team_summary, h4]

/-- C1 witness: a 500 response, a transport exception, a 404 response and a
500 response each yield the empty result. -/
theorem C1_witness :
    get_user_tickets (HttpResult.ok 500 [⟨"K-1", "fix", "Open", "High"⟩]) = [] ∧
      get_recent_assignments (HttpResult.exn) = [] ∧
      get_upcoming_deadlines (HttpResult.ok 404 []) = [] ∧
      get_team_summary (HttpResult.ok 500 [⟨"a@x", "Ana", "To Do"⟩]) = [] :=
  C1_search_ops_empty_on_failure _ _ _ _ rfl rfl rfl rfl

/-- C4: on a poller tick whose current local hour is strictly below 8 or
strictly above 18, `check_new_assignments` performs no effect at all: no
tracker search and no direct message. -/
theorem C4_poller_noop_outside_window (hour : Nat) (r : HttpResult AssignmentIssue)
    (h : hour < 8 ∨ hour > 18) :
    check_new_assignments hour r = [] := by
  unfold check_new_assignments
  exact if_pos h

/-- C4 witness: at hour 7, even with a successful response carrying an
assignable issue, the tick is a no-op. -/
theorem C4_witness :
    check_new_assignments 7 (HttpResult.ok 200 [⟨"K-2", "fix", some "a@x", "High"⟩]) = [] :=
  C4_poller_noop_outside_window 7 _ (Or.inl (by decide))

/-- C6: when the chat-identity lookup fails, `send_slack_dm` returns `false`
without raising, and the trace contains only the lookup call — the
`chat.postMessage` request is never issued. -/
theorem C6_dm_soft_failure (email : String) (lookup : LookupOutcome) (post : PostOutcome)
    (h : lookup.isOk = false) :
    send_slack_dm email lookup post = (false, [DmCall.lookupByEmail email]) := by
  cases lookup with
  | ok userId => exact absurd h (by simp [LookupOutcome.isOk])
  | notOk => rfl
  | exn => rfl

/-- C6 witness: an `ok: false` lookup response for a concrete address. -/
theorem C6_witness :
    send_slack_dm "bob@example.com" LookupOutcome.notOk (PostOutcome.ok true) =
      (false, [DmCall.lookupByEmail "bob@example.com"]) :=
  C6_dm_soft_failure "bob@example.com" LookupOutcome.notOk (PostOutcome.ok true) rfl

/-- C9: when the speaker identity cannot be resolved, the router returns the
identification error reply and its trace contains only the user lookup —
no intent predicate's data fetch runs. -/
theorem C9_unresolved_speaker (w : World) (text : String) (h : w.slackUser = none) :
    process_natural_question w text =
      ("❌ Não consegui identificar seu usuário.", [Call.slackUserLookup]) := by
  simp [process_natural_question, h]

/-- C9 witness: the lookup fails while the personal keyword is present and the
tickets fetch would have data; still only the error reply and no tracker call. -/
theorem C9_witness :
    process_natural_question
      ⟨none, HttpResult.ok 200 [⟨"K-1", "fix", "Open", "High"⟩], HttpResult.exn,
        HttpResult.exn, 0, 0⟩ "meus tickets" =
      ("❌ Não consegui identificar seu usuário.", [Call.slackUserLookup]) :=
  C9_unresolved_speaker _ "meus tickets" rfl

/-- C8 counterexample: with a payload of 21 issues the function returns all
21, so the returned sequence cannot both be exactly the payload and be capped
at the configured maximum of 20 — the claim's cap clause fails. -/
theorem C8_counterexample :
    ¬ (get_user_tickets
          (HttpResult.ok 200 (List.replicate 21 ⟨"K-1", "fix", "Open", "High"⟩)) =
        List.replicate 21 ⟨"K-1", "fix", "Open", "High"⟩ ∧
      (get_user_tickets
          (HttpResult.ok 200 (List.replicate 21 ⟨"K-1", "fix", "Open", "High"⟩))).length ≤ 20) := by
  intro h
  have h2 := h.2
  simp [get_user_tickets] at h2

/-- C8 amended: `get_user_tickets` returns exactly the issues present in the
payload, in the payload's order, with no client-side cap; the configured
maximum of 20 is only sent as the request's `maxResults` parameter, so the cap
relies on the tracker honouring it. -/
theorem C8_amended_passthrough (issues : List Ticket) (email : String) :
    get_user_tickets (HttpResult.ok 200 issues) = issues ∧
      (userTicketsRequest email).maxResults = 20 :=
  ⟨rfl, rfl⟩

/-! ### Claims about the command router -/

/-- C2: the intent predicates are tested in order with the first match
winning; whenever a personal keyword is contained in the cleaned text the
router produces the personal-tickets reply and calls only the user-tickets
search — even when a team keyword is contained as well, the team intent never
fires. -/
theorem C2_personal_over_team (w : World) (text : String) (su : SlackUser)
    (hu : w.slackUser = some su)
    (hp : matchesAny personalKws (cleanText text) = true)
    (ht : matchesAny teamKws (cleanText text) = true) :
    process_natural_question w text =
      (personalReply (su.realName.getD su.name) (get_user_tickets w.userTicketsResp),
       [Call.slackUserLookup,
        Call.jiraUserTickets
          (if su.profileEmail = "" then su.name ++ EMAIL_DOMAIN else su.profileEmail)]) := by
  simp [process_natural_question, hu, hp]

/-- C2 witness: "meus tickets da equipe" contains a personal keyword and the
team keyword "equipe", and resolves to the personal reply with no team
search. -/
theorem C2_witness :
    process_natural_question
      ⟨some ⟨"alice@example.com", "alice", some "Alice"⟩,
        HttpResult.ok 200 [⟨"K-1", "fix", "Open", "High"⟩],
        HttpResult.ok 200 [⟨"a@x", "Ana", "To Do"⟩], HttpResult.exn, 0, 0⟩
      "meus tickets da equipe" =
      (personalReply "Alice" (get_user_tickets (HttpResult.ok 200 [⟨"K-1", "fix", "Open", "High"⟩])),
       [Call.slackUserLookup, Call.jiraUserTickets "alice@example.com"]) :=
  C2_personal_over_team _ "meus tickets da equipe" ⟨"alice@example.com", "alice", some "Alice"⟩
    rfl (by decide) (by decide)

/-- C3 counterexample: with a resolved speaker, the team intent and a
successful team fetch returning zero issues, the reply is the "❌" failure
text — the very same text produced when the fetch fails with an exception —
not a positive "nothing pending" message. -/
theorem C3_counterexample :
    (process_natural_question
        ⟨some ⟨"a@x", "ana", some "Ana"⟩, HttpResult.exn, HttpResult.ok 200 [],
          HttpResult.exn, 0, 0⟩ "equipe").1 =
      "❌ Não consegui gerar relatório da equipe." ∧
    (process_natural_question
        ⟨some ⟨"a@x", "ana", some "Ana"⟩, HttpResult.exn, HttpResult.exn,
          HttpResult.exn, 0, 0⟩ "equipe").1 =
      "❌ Não consegui gerar relatório da equipe." := by
  exact ⟨by decide, by decide⟩

/-- C3 amended: a zero-item fetch yields the positive "nothing pending" reply
for the personal-tickets and deadline intents; for the team intent a
zero-item fetch yields the "❌ Não consegui gerar relatório da equipe."
failure text, because the empty aggregate is indistinguishable from a failed
fetch. -/
theorem C3_amended_zero_items (w : World) (text : String) (su : SlackUser)
    (hu : w.slackUser = some su) :
    (matchesAny personalKws (cleanText text) = true →
      get_user_tickets w.userTicketsResp = [] →
      (process_natural_question w text).1 =
        "🎉 @" ++ su.realName.getD su.name ++ ", você não tem tickets em aberto!") ∧
    (matchesAny personalKws (cleanText text) = false →
      matchesAny teamKws (cleanText text) = true →
      get_team_summary w.teamResp = [] →
      (process_natural_question w text).1 =
        "❌ Não consegui gerar relatório da equipe.") ∧
    (matchesAny personalKws (cleanText text) = false →
      matchesAny teamKws (cleanText text) = false →
      matchesAny deadlineKws (cleanText text) = true →
      get_upcoming_deadlines w.deadlinesResp = [] →
      (process_natural_question w text).1 =
        "🎉 Não há deadlines próximos nos próximos 7 dias!") := by
  refine ⟨?_, ?_, ?_⟩
  · intro hp hempty
    simp [process_natural_question, hu, hp, hempty, personalReply]
  · intro hp ht hempty
    simp [process_natural_question, hu, hp, ht, hempty, teamReply]
  · intro hp ht hd hempty
    simp [process_natural_question, hu, hp, ht, hd, hempty, deadlineReply]

/-- C3 witness: personal intent with a successful fetch of zero tickets gives
the positive no-open-tickets reply. -/
theorem C3_witness :
    (process_natural_question
        ⟨some ⟨"a@x", "ana", some "Ana"⟩, HttpResult.ok 200 [], HttpResult.exn,
          HttpResult.exn, 0, 0⟩ "meus tickets").1 =
      "🎉 @" ++ "Ana" ++ ", você não tem tickets em aberto!" :=
  (C3_amended_zero_items _ "meus tickets" ⟨"a@x", "ana", some "Ana"⟩ rfl).1 (by decide) rfl

/-- The reply loop concatenates one formatted line per listed ticket. -/
lemma personalLines_eq_joinStr (l : List Ticket) :
    personalLines l = joinStr (l.map ticketLine) := by
  induction l with
  | nil => rfl
  | cons t ts ih => simp [personalLines, joinStr, ih]

/-- C7: with N > 5 open issues the personal reply lists exactly the first 5
formatted lines and appends the remainder count N − 5; with 1 ≤ N ≤ 5 it
lists all N lines and no remainder clause. -/
theorem C7_personal_top5_remainder (displayName : String) (tickets : List Ticket) :
    (tickets.length > 5 →
      (tickets.take 5).length = 5 ∧
      personalReply displayName tickets =
        "🎯 @" ++ displayName ++ ", você tem " ++ toString tickets.length ++
          " ticket(s) em aberto:\n" ++
        joinStr ((tickets.take 5).map ticketLine) ++
        ("\n... e mais " ++ toString (tickets.length - 5) ++ " tickets")) ∧
    (1 ≤ tickets.length → tickets.length ≤ 5 →
      personalReply displayName tickets =
        "🎯 @" ++ displayName ++ ", você tem " ++ toString tickets.length ++
          " ticket(s) em aberto:\n" ++
        joinStr (tickets.map ticketLine)) := by
  constructor
  · intro h5
    have hisE : tickets.isEmpty = false := by
      cases tickets with
      | nil => simp at h5
      | cons a l => rfl
    constructor
    · rw [List.length_take]
      omega
    · simp [personalReply, hisE, h5, personalLines_eq_joinStr]
  · intro h1 h5
    have hisE : tickets.isEmpty = false := by
      cases tickets with
      | nil => simp at h1
      | cons a l => rfl
    have htake : tickets.take 5 = tickets := List.take_of_length_le h5
    have hgt : ¬ tickets.length > 5 := by omega
    simp [personalReply, hisE, hgt, htake, personalLines_eq_joinStr]

/-- C7 witness: the seven-ticket scenario — the first five lines are listed
and the remainder clause counts 7 − 5 = 2 tickets. -/
theorem C7_witness :
    (c7Tickets.take 5).length = 5 ∧
    personalReply "Alice" c7Tickets =
      "🎯 @" ++ "Alice" ++ ", você tem " ++ toString c7Tickets.length ++
        " ticket(s) em aberto:\n" ++
      joinStr ((c7Tickets.take 5).map ticketLine) ++
      ("\n... e mais " ++ toString (c7Tickets.length - 5) ++ " tickets") :=
  (C7_personal_top5_remainder "Alice" c7Tickets).1 (by decide)

/-! ### Claims about the deadline computation -/

/-- Closed form of the source's `(due_datetime - datetime.now()).days`: it is
the calendar-date difference only when the current time of day is exactly
midnight; otherwise it is one less. -/
lemma daysLeft_closed_form (due nowDay : Int) (s : Nat) (hs : s < 86400) :
    daysLeft due nowDay s = if s = 0 then due - nowDay else due - nowDay - 1 := by
  unfold daysLeft
  by_cases h0 : s = 0
  · subst h0
    rw [if_pos rfl]
    rw [show due * 86400 - (nowDay * 86400 + ((0 : Nat) : Int)) = (due - nowDay) * 86400 by
      push_cast; ring]
    exact Int.mul_ediv_cancel _ (by norm_num)
  · rw [if_neg h0]
    rw [show due * 86400 - (nowDay * 86400 + (s : Int)) =
          (-(s : Int)) + (due - nowDay) * 86400 by ring]
    rw [Int.add_mul_ediv_right _ _ (by norm_num : (86400 : Int) ≠ 0)]
    rw [show (-(s : Int)) = (86400 - (s : Int)) + (-1) * 86400 by ring]
    rw [Int.add_mul_ediv_right _ _ (by norm_num : (86400 : Int) ≠ 0)]
    rw [Int.ediv_eq_zero_of_lt (by omega) (by omega)]
    ring

/-- The three-way urgency decision characterised by its thresholds. -/
lemma urgencyTag_spec (d : Int) :
    (urgencyTag d = Urgency.critical ↔ d ≤ 1) ∧
    (urgencyTag d = Urgency.warning ↔ 1 < d ∧ d ≤ 3) ∧
    (urgencyTag d = Urgency.normal ↔ 3 < d) := by
  unfold urgencyTag
  refine ⟨?_, ?_, ?_⟩ <;> split_ifs with h1 h2 <;> simp_all <;> omega

/-- C5 counterexample: with the current datetime one hour past midnight of
day 0 and a due date on day 4 (calendar-date difference 4), the code computes
3 remaining days and tags the issue warning — the claim predicts 4 and the
normal tag. -/
theorem C5_counterexample :
    daysLeft 4 0 3600 ≠ 4 - 0 ∧ urgencyTag (daysLeft 4 0 3600) ≠ Urgency.normal := by
  decide

/-- C5 amended: days-remaining is the floor of (due-date midnight − current
datetime) in whole days — the calendar-date difference when the current time
of day is exactly midnight and the calendar difference minus one otherwise —
preserved even when negative (overdue); the urgency tag is critical when
days-remaining ≤ 1, warning when ≤ 3, normal otherwise. -/
theorem C5_amended_days_left (due nowDay : Int) (s : Nat) (hs : s < 86400) :
    (s = 0 → daysLeft due nowDay s = due - nowDay) ∧
    (0 < s → daysLeft due nowDay s = due - nowDay - 1) ∧
    (due < nowDay → daysLeft due nowDay s < 0) ∧
    (urgencyTag (daysLeft due nowDay s) = Urgency.critical ↔ daysLeft due nowDay s ≤ 1) ∧
    (urgencyTag (daysLeft due nowDay s) = Urgency.warning ↔
      1 < daysLeft due nowDay s ∧ daysLeft due nowDay s ≤ 3) ∧
    (urgencyTag (daysLeft due nowDay s) = Urgency.normal ↔ 3 < daysLeft due nowDay s) := by
  have hcf := daysLeft_closed_form due nowDay s hs
  have hspec := urgencyTag_spec (daysLeft due nowDay s)
  refine ⟨?_, ?_, ?_, hspec.1, hspec.2.1, hspec.2.2⟩
  · intro h0
    rw [hcf, if_pos h0]
  · intro hpos
    rw [hcf, if_neg (by omega)]
  · intro hlt
    rw [hcf]
    split_ifs <;> omega

/-- C5 witness: a due date exactly one midnight-to-midnight day away computes
1 remaining day, and the tag is critical exactly when days-remaining ≤ 1. -/
theorem C5_witness :
    daysLeft 1 0 0 = 1 - 0 ∧
    (urgencyTag (daysLeft 1 0 0) = Urgency.critical ↔ daysLeft 1 0 0 ≤ 1) :=
  ⟨(C5_amended_days_left 1 0 0 (by decide)).1 rfl,
   (C5_amended_days_left 1 0 0 (by decide)).2.2.2.1⟩

/-! ### Claims about the team aggregation invariants -/

lemma bumpStat_total (t : TeamStat) (s : String) : (bumpStat t s).total = t.total + 1 := by
  unfold bumpStat
  split_ifs <;> rfl

lemma catSum_bumpStat_le (t : TeamStat) (s : String) :
    catSum (bumpStat t s) ≤ catSum t + 1 := by
  unfold bumpStat catSum
  split_ifs <;> simp <;> omega

lemma catSum_bumpStat_noClass (t : TeamStat) (s : String) (h : matchesNoClass s = true) :
    catSum (bumpStat t s) = catSum t := by
  unfold matchesNoClass at h
  simp only [Bool.and_eq_true, Bool.not_eq_true'] at h
  obtain ⟨⟨h1, h2⟩, h3⟩ := h
  unfold bumpStat catSum
  simp [h1, h2, h3]

lemma catSum_freshStat (n : String) : catSum (freshStat n) = 0 := rfl

lemma lookupEntry_setEntry_self (k : String) (v : TeamStat) (d : List (String × TeamStat)) :
    lookupEntry k (setEntry k v d) = some v := by
  induction d with
  | nil => simp [setEntry, lookupEntry]
  | cons p rest ih =>
    obtain ⟨k', v'⟩ := p
    unfold setEntry
    split_ifs with h
    · simp [lookupEntry]
    · simp [lookupEntry, h, ih]

lemma lookupEntry_setEntry_ne (q k : String) (v : TeamStat) (h : q ≠ k)
    (d : List (String × TeamStat)) :
    lookupEntry q (setEntry k v d) = lookupEntry q d := by
  induction d with
  | nil => simp only [setEntry, lookupEntry, if_neg (Ne.symm h)]
  | cons p rest ih =>
    obtain ⟨k', v'⟩ := p
    unfold setEntry
    split_ifs with hk
    · subst hk
      simp only [lookupEntry, if_neg (Ne.symm h)]
    · by_cases hq : k' = q
      · simp only [lookupEntry, if_pos hq]
      · simp only [lookupEntry, if_neg hq, ih]

lemma lookupEntry_stepStats (d : List (String × TeamStat)) (i : TeamIssue) (k : String) :
    lookupEntry k (stepStats d i) =
      if i.assigneeEmail = k then
        some (bumpStat ((lookupEntry k d).getD (freshStat i.assigneeName)) i.status)
      else lookupEntry k d := by
  unfold stepStats
  split_ifs with h
  · rw [← h, lookupEntry_setEntry_self]
  · exact lookupEntry_setEntry_ne k i.assigneeEmail _ (fun hk => h hk.symm) d

lemma lookupEntry_foldl (issues : List TeamIssue) :
    ∀ (d : List (String × TeamStat)) (k : String),
      lookupEntry k (issues.foldl stepStats d) =
        runKey (lookupEntry k d) (issues.filter (fun i => i.assigneeEmail == k)) := by
  induction issues with
  | nil => intro d k; rfl
  | cons i is ih =>
    intro d k
    rw [List.foldl_cons, ih, lookupEntry_stepStats]
    by_cases h : i.assigneeEmail = k
    · simp [h, List.filter_cons, runKey]
    · simp [h, List.filter_cons]

lemma runKey_total (l : List TeamIssue) :
    ∀ (o : Option TeamStat) (t : TeamStat),
      runKey o l = some t → t.total = optTotal o + l.length := by
  induction l with
  | nil =>
    intro o t h
    cases o with
    | none => simp [runKey] at h
    | some u =>
      obtain rfl : u = t := by simpa [runKey] using h
      simp [optTotal]
  | cons i is ih =>
    intro o t h
    have hstep := ih (some (bumpStat (o.getD (freshStat i.assigneeName)) i.status)) t h
    simp only [optTotal] at hstep
    rw [bumpStat_total] at hstep
    cases o with
    | none => simp [optTotal, freshStat] at hstep ⊢; omega
    | some u => simp [optTotal] at hstep ⊢; omega

lemma runKey_cat_le (l : List TeamIssue) :
    ∀ (o : Option TeamStat) (t : TeamStat),
      runKey o l = some t → catSum t ≤ optCat o + l.length := by
  induction l with
  | nil =>
    intro o t h
    cases o with
    | none => simp [runKey] at h
    | some u =>
      obtain rfl : u = t := by simpa [runKey] using h
      simp [optCat]
  | cons i is ih =>
    intro o t h
    have hstep := ih (some (bumpStat (o.getD (freshStat i.assigneeName)) i.status)) t h
    simp only [optCat] at hstep
    have hb := catSum_bumpStat_le (o.getD (freshStat i.assigneeName)) i.status
    cases o with
    | none => simp [optCat, catSum_freshStat] at hstep hb ⊢; omega
    | some u => simp [optCat] at hstep hb ⊢; omega

lemma runKey_cat_strict (l : List TeamIssue) :
    ∀ (o : Option TeamStat) (t : TeamStat),
      runKey o l = some t → (∃ i ∈ l, matchesNoClass i.status = true) →
      catSum t + 1 ≤ optCat o + l.length := by
  induction l with
  | nil =>
    intro o t _ hex
    simp at hex
  | cons i is ih =>
    intro o t h hex
    obtain ⟨j, hj, hnc⟩ := hex
    rcases List.mem_cons.mp hj with rfl | hjs
    · have hle := runKey_cat_le is (some (bumpStat (o.getD (freshStat j.assigneeName)) j.status)) t h
      simp only [optCat] at hle
      rw [catSum_bumpStat_noClass _ _ hnc] at hle
      cases o with
      | none => simp [optCat, catSum_freshStat] at hle ⊢; omega
      | some u => simp [optCat] at hle ⊢; omega
    · have hstep := ih (some (bumpStat (o.getD (freshStat i.assigneeName)) i.status)) t h
        ⟨j, hjs, hnc⟩
      simp only [optCat] at hstep
      have hb := catSum_bumpStat_le (o.getD (freshStat i.assigneeName)) i.status
      cases o with
      | none => simp [optCat, catSum_freshStat] at hstep hb ⊢; omega
      | some u => simp [optCat] at hstep hb ⊢; omega

/-- C10: for any issue list fed to the team aggregation and any per-assignee
record in the result: `total` counts exactly the issues of that assignee;
the three category counters sum to at most `total`, strictly less as soon as
some issue of that assignee has a status matching none of the keyword
classes; and the per-issue step increments `total` always and at most one
category counter, chosen by the first matching class in the order progress,
to-do, blocked. -/
theorem C10_team_aggregation_invariants (issues : List TeamIssue) (k : String) (t : TeamStat)
    (h : lookupEntry k (teamStats issues) = some t) (u : TeamStat) (s : String) :
    t.total = (issues.filter (fun i => i.assigneeEmail == k)).length ∧
    catSum t ≤ t.total ∧
    ((∃ i ∈ issues, i.assigneeEmail = k ∧ matchesNoClass i.status = true) →
      catSum t < t.total) ∧
    (bumpStat u s).total = u.total + 1 ∧
    catSum (bumpStat u s) ≤ catSum u + 1 ∧
    (isProgress s = true →
      bumpStat u s = { u with total := u.total + 1, em_progresso := u.em_progresso + 1 }) ∧
    (isProgress s = false → isTodo s = true →
      bumpStat u s = { u with total := u.total + 1, a_fazer := u.a_fazer + 1 }) ∧
    (isProgress s = false → isTodo s = false → isBlocked s = true →
      bumpStat u s = { u with total := u.total + 1, bloqueado := u.bloqueado + 1 }) ∧
    (matchesNoClass s = true → bumpStat u s = { u with total := u.total + 1 }) := by
  have h' : runKey none (issues.filter (fun i => i.assigneeEmail == k)) = some t := by
    rw [teamStats, lookupEntry_foldl issues [] k] at h
    exact h
  have htot := runKey_total _ _ _ h'
  have hcat := runKey_cat_le _ _ _ h'
  simp only [optTotal] at htot
  simp only [optCat] at hcat
  refine ⟨by omega, by omega, ?_, bumpStat_total u s, catSum_bumpStat_le u s, ?_, ?_, ?_, ?_⟩
  · rintro ⟨i, hi, hik, hnc⟩
    have hmem : i ∈ issues.filter (fun i => i.assigneeEmail == k) :=
      List.mem_filter.mpr ⟨hi, by simp [hik]⟩
    have hstrict := runKey_cat_strict _ _ _ h' ⟨i, hmem, hnc⟩
    simp only [optCat] at hstrict
    omega
  · intro h1
    unfold bumpStat
    rw [if_pos h1]
  · intro h1 h2
    unfold bumpStat
    rw [if_neg (by simp [h1]), if_pos h2]
  · intro h1 h2 h3
    unfold bumpStat
    rw [if_neg (by simp [h1]), if_neg (by simp [h2]), if_pos h3]
  · intro hnc
    unfold matchesNoClass at hnc
    simp only [Bool.and_eq_true, Bool.not_eq_true'] at hnc
    obtain ⟨⟨h1, h2⟩, h3⟩ := hnc
    unfold bumpStat
    rw [if_neg (by simp [h1]), if_neg (by simp [h2]), if_neg (by simp [h3])]

/-- C10 witness: for the two-issue sample of one assignee the record is
⟨total 2, one in progress⟩ with a strict category-sum gap (the "Review" issue
matches no class), and bumping a record with status "Blocked" increments only
the blocked counter. -/
theorem C10_witness :
    catSum ⟨"Ana Lima", 2, 1, 0, 0⟩ < (⟨"Ana Lima", 2, 1, 0, 0⟩ : TeamStat).total ∧
    bumpStat ⟨"Bob", 5, 2, 1, 0⟩ "Blocked" =
      { (⟨"Bob", 5, 2, 1, 0⟩ : TeamStat) with total := 6, bloqueado := 1 } := by
  have h := C10_team_aggregation_invariants c10Issues "a@x" ⟨"Ana Lima", 2, 1, 0, 0⟩
    (by decide) ⟨"Bob", 5, 2, 1, 0⟩ "Blocked"
  refine ⟨h.2.2.1 ⟨⟨"a@x", "Ana Lima", "Review"⟩, by decide, rfl, by decide⟩, ?_⟩
  exact h.2.2.2.2.2.2.2.1 (by decide) (by decide) (by decide)

end Jiraldo
